import Mathlib

/-
  Verification development for the NEOBANK signup/KYC flow.

  The repository contains two parallel implementations of the onboarding flow:
  * the `users` app (users/models.py, users/views.py): `SignupSession` with a
    JSON `data` blob, OTP attempt counters, SHA-256 hashed PIN, masked
    identifier storage;
  * the `accounts` app (accounts/models.py, accounts/views.py,
    accounts/forms.py, accounts/utils.py): `SignupProgress` with per-step
    boolean flags, no OTP attempt counters, and a `CustomUser` that stores the
    full Aadhaar/PAN numbers and the PIN as a plain integer.

  Both are embedded below, each definition translated from its source
  function.  Machine integers are Nat (with explicit `% 2 ^ 32` where the
  source relies on 32-bit wraparound, i.e. in SHA-256); timestamps are Nat
  seconds; `datetime.timedelta(minutes=15)` is 900 seconds and
  `ttl_seconds=300` is 300 seconds.
-/

namespace SHA256

/-- One 32-bit word, kept `< 2 ^ 32` by reducing after every addition. -/
def M32 : Nat := 4294967296

def add32 (a b : Nat) : Nat := (a + b) % M32

/-- Right rotation of a 32-bit word. -/
def rotr (x k : Nat) : Nat := ((x >>> k) ||| (x <<< (32 - k))) % M32

/-- Bitwise complement within 32 bits. -/
def not32 (x : Nat) : Nat := 4294967295 ^^^ x

/-- The SHA-256 round constants (FIPS 180-4), in decimal. -/
def K : List Nat :=
  [1116352408, 1899447441, 3049323471, 3921009573,
   961987163, 1508970993, 2453635748, 2870763221,
   3624381080, 310598401, 607225278, 1426881987,
   1925078388, 2162078206, 2614888103, 3248222580,
   3835390401, 4022224774, 264347078, 604807628,
   770255983, 1249150122, 1555081692, 1996064986,
   2554220882, 2821834349, 2952996808, 3210313671,
   3336571891, 3584528711, 113926993, 338241895,
   666307205, 773529912, 1294757372, 1396182291,
   1695183700, 1986661051, 2177026350, 2456956037,
   2730485921, 2820302411, 3259730800, 3345764771,
   3516065817, 3600352804, 4094571909, 275423344,
   430227734, 506948616, 659060556, 883997877,
   958139571, 1322822218, 1537002063, 1747873779,
   1955562222, 2024104815, 2227730452, 2361852424,
   2428436474, 2756734187, 3204031479, 3329325298]

/-- The eight 32-bit chaining values of the hash state. -/
structure HashState where
  a : Nat
  b : Nat
  c : Nat
  d : Nat
  e : Nat
  f : Nat
  g : Nat
  h : Nat

def initState : HashState :=
  ⟨1779033703, 3144134277, 1013904242, 2773480762,
   1359893119, 2600822924, 528734635, 1541459225⟩

def smallSigma0 (x : Nat) : Nat := rotr x 7 ^^^ rotr x 18 ^^^ (x >>> 3)

def smallSigma1 (x : Nat) : Nat := rotr x 17 ^^^ rotr x 19 ^^^ (x >>> 10)

def bigSigma0 (x : Nat) : Nat := rotr x 2 ^^^ rotr x 13 ^^^ rotr x 22

def bigSigma1 (x : Nat) : Nat := rotr x 6 ^^^ rotr x 11 ^^^ rotr x 25

/-- One compression round. -/
def round (kt wt : Nat) (s : HashState) : HashState :=
  let ch := (s.e &&& s.f) ^^^ (not32 s.e &&& s.g)
  let t1 := (s.h + bigSigma1 s.e + ch + kt + wt) % M32
  let maj := (s.a &&& s.b) ^^^ (s.a &&& s.c) ^^^ (s.b &&& s.c)
  let t2 := (bigSigma0 s.a + maj) % M32
  ⟨(t1 + t2) % M32, s.a, s.b, s.c, (s.d + t1) % M32, s.e, s.f, s.g⟩

/-- Extend the 16 block words by `n` further schedule words. -/
def extendWords (ws : List Nat) : Nat → List Nat
  | 0 => ws
  | n + 1 =>
      let t := ws.length
      let w := (smallSigma1 (ws.getD (t - 2) 0) + ws.getD (t - 7) 0 +
                smallSigma0 (ws.getD (t - 15) 0) + ws.getD (t - 16) 0) % M32
      extendWords (ws ++ [w]) n

def compressWords : List Nat → List Nat → HashState → HashState
  | w :: ws, k :: ks, s => compressWords ws ks (round k w s)
  | _, _, s => s

def addState (s t : HashState) : HashState :=
  ⟨add32 s.a t.a, add32 s.b t.b, add32 s.c t.c, add32 s.d t.d,
   add32 s.e t.e, add32 s.f t.f, add32 s.g t.g, add32 s.h t.h⟩

/-- Process one 512-bit block (given as 16 big-endian 32-bit words). -/
def processBlock (s : HashState) (block : List Nat) : HashState :=
  addState s (compressWords (extendWords block 48) K s)

/-- UTF-8 encoding of one character (Python `str.encode()`). -/
def utf8Bytes (c : Char) : List Nat :=
  let n := c.toNat
  if n < 128 then [n]
  else if n < 2048 then [192 + n / 64, 128 + n % 64]
  else if n < 65536 then
    [224 + n / 4096, 128 + (n / 64) % 64, 128 + n % 64]
  else
    [240 + n / 262144, 128 + (n / 4096) % 64, 128 + (n / 64) % 64,
     128 + n % 64]

def stringBytes (s : String) : List Nat := s.data.flatMap utf8Bytes

/-- The eight big-endian bytes of the 64-bit message bit length. -/
def lenBytes (bitLen : Nat) : List Nat :=
  (List.range 8).map (fun i => (bitLen >>> ((7 - i) * 8)) % 256)

/-- Merkle–Damgård padding: 128, zeros to 56 mod 64, 64-bit length. -/
def padMessage (bytes : List Nat) : List Nat :=
  let zeros := (120 - (bytes.length + 1) % 64) % 64
  bytes ++ [128] ++ List.replicate zeros 0 ++ lenBytes (bytes.length * 8)

/-- Group bytes into big-endian 32-bit words. -/
def toWords : List Nat → List Nat
  | b0 :: b1 :: b2 :: b3 :: rest =>
      (((b0 * 256 + b1) * 256 + b2) * 256 + b3) :: toWords rest
  | _ => []

/-- Split a word list into blocks of 16 (`fuel ≥ ws.length` suffices). -/
def toBlocksGo : Nat → List Nat → List (List Nat)
  | _, [] => []
  | 0, _ => []
  | fuel + 1, ws => ws.take 16 :: toBlocksGo fuel (ws.drop 16)

def toBlocks (ws : List Nat) : List (List Nat) := toBlocksGo ws.length ws

def hexChar (n : Nat) : Char :=
  if n < 10 then Char.ofNat (48 + n) else Char.ofNat (87 + n)

/-- Lower-case hexadecimal rendering of a 32-bit word, 8 characters. -/
def hex8 (n : Nat) : String :=
  ⟨(List.range 8).map (fun i => hexChar ((n >>> ((7 - i) * 4)) % 16))⟩

def HashState.hexdigest (s : HashState) : String :=
  hex8 s.a ++ hex8 s.b ++ hex8 s.c ++ hex8 s.d ++
  hex8 s.e ++ hex8 s.f ++ hex8 s.g ++ hex8 s.h

/-- `hashlib.sha256(s.encode()).hexdigest()`. -/
def sha256hex (s : String) : String :=
  ((toBlocks (toWords (padMessage (stringBytes s)))).foldl
    processBlock initState).hexdigest

end SHA256

/-!
## Python string primitives

The Python `str` methods the views call, embedded as character-list
operations (the inputs in this flow are ASCII: digits, `M`/`F`/`O`, names,
emails, PANs).
-/

namespace Py

/-- `str.strip()`: drop leading and trailing whitespace. -/
def strip (s : String) : String :=
  String.mk
    (((s.data.dropWhile Char.isWhitespace).reverse.dropWhile
      Char.isWhitespace).reverse)

/-- `str.lower()` (ASCII case mapping). -/
def lower (s : String) : String := String.mk (s.data.map Char.toLower)

/-- `str.upper()` (ASCII case mapping). -/
def upper (s : String) : String := String.mk (s.data.map Char.toUpper)

/-- `str.isdigit()`: nonempty and all digits. -/
def isdigit (s : String) : Bool := s.data ≠ [] && s.data.all Char.isDigit

/-- `str.split(sep)` for a one-character separator, on the char level. -/
def splitCharsOn (sep : Char) : List Char → List (List Char)
  | [] => [[]]
  | c :: cs =>
      match splitCharsOn sep cs with
      | [] => [[]]
      | h :: t => if c = sep then [] :: h :: t else (c :: h) :: t

/-- `str.split(sep)` for a one-character separator. -/
def splitOnChar (sep : Char) (s : String) : List String :=
  (splitCharsOn sep s.data).map String.mk

/-- Whitespace-mode `str.split()`: runs of whitespace separate, no empties. -/
def splitWsChars : List Char → List Char → List (List Char)
  | [], acc => if acc = [] then [] else [acc.reverse]
  | c :: cs, acc =>
      if c.isWhitespace then
        if acc = [] then splitWsChars cs []
        else acc.reverse :: splitWsChars cs []
      else splitWsChars cs (c :: acc)

def splitWs (s : String) : List String :=
  (splitWsChars s.data []).map String.mk

/-- `int(s)` for a plain digit string (`none` models the `ValueError`). -/
def toNatOption (s : String) : Option Nat :=
  if isdigit s then
    some (s.data.foldl (fun a c => a * 10 + (c.toNat - 48)) 0)
  else none

/-- `c in s` for a single character. -/
def containsChar (s : String) (c : Char) : Bool := s.data.contains c

end Py

/-!
## The `users` app (users/models.py, users/views.py)

This is the flow the spec's state machine (§4.3) describes: `SignupSession`
stores `current_step`, OTP state and a `data` blob; the JSON `data` payloads
(`personal_details`, `aadhaar_verification`, `pan_verification`) are embedded
as typed structures with exactly the keys the views write.
-/

namespace Users

open SHA256 (sha256hex)

/-- `data['personal_details']` as written by `save_personal_details`. -/
structure PersonalDetails where
  full_name : String
  email : String
  date_of_birth : String
  gender : String
  saved_at : Nat
deriving DecidableEq

/-- The `status` value of a verification sub-dict: `'otp_sent'`/`'verified'`. -/
inductive VerifStatus where
  | otpSent
  | verified
deriving DecidableEq

/-- `data['aadhaar_verification']` as written by `verify_aadhaar` /
`verify_aadhaar_otp`. -/
structure AadhaarVerification where
  aadhaar_last_4 : String
  aadhaar_record_id : Nat
  address_provided : String
  otp_code : Option String
  otp_generated_at : Nat
  otp_expires_at : Nat
  otp_attempts : Nat
  status : VerifStatus
  verified_at : Option Nat
deriving DecidableEq

/-- `data['pan_verification']` as written by `verify_pan` / `verify_pan_otp`. -/
structure PanVerification where
  pan_last_4 : String
  pan_record_id : Nat
  otp_code : Option String
  otp_generated_at : Nat
  otp_expires_at : Nat
  otp_attempts : Nat
  status : VerifStatus
  verified_at : Option Nat
deriving DecidableEq

/-- `users.models.SignupSession` (nullable columns are `Option`). -/
structure SignupSession where
  phone : String
  current_step : Nat
  is_completed : Bool
  otp_code : Option String
  otp_expires_at : Option Nat
  otp_attempts : Nat
  personal_details : Option PersonalDetails
  aadhaar_verification : Option AadhaarVerification
  pan_verification : Option PanVerification
deriving DecidableEq

/-- `SignupSession.otp_is_valid`: OTP set and `now <= otp_expires_at`. -/
def SignupSession.otp_is_valid (s : SignupSession) (now : Nat) : Bool :=
  match s.otp_code, s.otp_expires_at with
  | some _, some t => now ≤ t
  | _, _ => false

/-- `SignupSession.set_otp(code, ttl_seconds)`. -/
def SignupSession.set_otp (s : SignupSession) (code : String) (now ttl : Nat) :
    SignupSession :=
  { s with otp_code := some code, otp_expires_at := some (now + ttl),
           otp_attempts := 0 }

/-- Failure reasons of `SignupSession.verify_otp`. -/
inductive OtpFailure where
  | noOtp
  | expired
  | wrong
deriving DecidableEq

/-- `SignupSession.verify_otp(code)`: `(none, s')` models `(True, None)`,
`(some r, s')` models `(False, reason)`. -/
def SignupSession.verify_otp (s : SignupSession) (code : String) (now : Nat) :
    Option OtpFailure × SignupSession :=
  match s.otp_code with
  | none => (some .noOtp, s)
  | some stored =>
      if ¬ s.otp_is_valid now then (some .expired, s)
      else if code = stored then
        (none, { s with otp_code := none, otp_expires_at := none,
                        otp_attempts := 0,
                        current_step := max s.current_step 2 })
      else (some .wrong, { s with otp_attempts := s.otp_attempts + 1 })

/-- `users.models.CustomUser` (only the fields the flow writes/reads). -/
structure UserRec where
  username : String
  email : String
  first_name : String
  last_name : String
  phone : String
  is_phone_verified : Bool
  pan_masked : String
  aadhaar_masked : String
  pin_hash : Option String
  pin_set_at : Option Nat
  pin_attempts : Nat
  pin_locked_until : Option Nat
deriving DecidableEq

/-- `CustomUser.set_pin`: `none` models the `ValueError` raise. -/
def UserRec.set_pin (u : UserRec) (pin : String) (now : Nat) :
    Option UserRec :=
  if pin = "" ∨ pin.length ≠ 6 ∨ ¬ Py.isdigit pin then none
  else
    some { u with pin_hash := some (sha256hex pin), pin_set_at := some now,
                  pin_attempts := 0, pin_locked_until := none }

/-- Results of `CustomUser.verify_pin`: `ok` models `(True, None)`, the rest
model `(False, reason)`. -/
inductive PinResult where
  | ok
  | locked
  | noPin
  | invalidFormat
  | wrong
deriving DecidableEq

/-- `CustomUser.is_pin_locked`: `pin_locked_until and now < pin_locked_until`. -/
def UserRec.is_pin_locked (u : UserRec) (now : Nat) : Bool :=
  match u.pin_locked_until with
  | some t => decide (now < t)
  | none => false

/-- `CustomUser.verify_pin(pin)`; `timedelta(minutes=15)` is 900 seconds. -/
def UserRec.verify_pin (u : UserRec) (pin : String) (now : Nat) :
    PinResult × UserRec :=
  if u.is_pin_locked now then
    (.locked, u)
  else
    match u.pin_hash with
    | none => (.noPin, u)
    | some stored =>
        if pin = "" ∨ pin.length ≠ 6 ∨ ¬ Py.isdigit pin then
          (.invalidFormat, u)
        else if sha256hex pin = stored then
          (.ok, { u with pin_attempts := 0, pin_locked_until := none })
        else
          (.wrong, { u with pin_attempts := u.pin_attempts + 1,
                            pin_locked_until :=
                              if u.pin_attempts + 1 ≥ 3 then some (now + 900)
                              else u.pin_locked_until })

/-- `users.models.AadhaarRecord`; `date_of_birth` is embedded as its
`%Y-%m-%d` rendering, which is the form all comparisons in the views use. -/
structure AadhaarRecord where
  id : Nat
  aadhaar_last_4 : String
  aadhaar_hash : String
  full_name : String
  date_of_birth : String
  gender : String
  address_line : String
  pin_code : String
  is_active : Bool
deriving DecidableEq

/-- `AadhaarRecord.generate_hash`. -/
def AadhaarRecord.generate_hash (aadhaar_number : String) : String :=
  sha256hex aadhaar_number

/-- `AadhaarRecord.get_masked_aadhaar`. -/
def AadhaarRecord.get_masked_aadhaar (r : AadhaarRecord) : String :=
  "XXXX-XXXX-" ++ r.aadhaar_last_4

/-- `users.models.PANRecord`. -/
structure PANRecord where
  id : Nat
  pan_last_4 : String
  pan_hash : String
  full_name : String
  date_of_birth : String
  father_name : String
  pan_status : String
  is_active : Bool
deriving DecidableEq

/-- `PANRecord.generate_hash` (upper-cases before hashing). -/
def PANRecord.generate_hash (pan_number : String) : String :=
  sha256hex (Py.upper pan_number)

/-- `PANRecord.get_masked_pan`. -/
def PANRecord.get_masked_pan (r : PANRecord) : String :=
  "XXXXX" ++ r.pan_last_4

end Users

namespace Users

/-- `''.join(filter(str.isdigit, s))`. -/
def digitsOf (s : String) : String := String.mk (s.data.filter Char.isDigit)

/-- Python `s[-n:]` on a string of length `>= n`. -/
def takeRight (s : String) (n : Nat) : String :=
  String.mk (s.data.drop (s.data.length - n))

/-- A calendar date as the Python code handles it after `strptime`. -/
structure Date where
  y : Nat
  m : Nat
  d : Nat
deriving DecidableEq

/-- `datetime.strptime(s, '%Y-%m-%d').date()`; `strptime`'s exact calendar
validation (month lengths, leap years) is approximated by range checks —
no claim depends on those edge dates. -/
def parseDate (s : String) : Option Date :=
  match Py.splitOnChar '-' s with
  | [y, m, d] =>
      match Py.toNatOption y, Py.toNatOption m, Py.toNatOption d with
      | some y, some m, some d =>
          if 1 ≤ m ∧ m ≤ 12 ∧ 1 ≤ d ∧ d ≤ 31 then some ⟨y, m, d⟩ else none
      | _, _, _ => none
  | _ => none

/-- Python's lexicographic comparison of date tuples (`a < b`). -/
def dateLt (a b : Date) : Bool :=
  decide (a.y < b.y ∨ (a.y = b.y ∧ (a.m < b.m ∨ (a.m = b.m ∧ a.d < b.d))))

/-- `today.year - dob.year - ((today.month, today.day) < (dob.month, dob.day))`. -/
def computeAge (today dob : Date) : Int :=
  (today.y : Int) - (dob.y : Int) -
    (if today.m < dob.m ∨ (today.m = dob.m ∧ today.d < dob.d) then 1 else 0)

/-- Modelled from the spec: Django's `validate_email` is an external
framework collaborator (spec §1 excludes the web framework); it is
abstracted as a basic syntactic check.  No claim depends on its exact
acceptance set. -/
def emailValid (s : String) : Bool :=
  match Py.splitOnChar '@' s with
  | [l, d] => l != "" && d != "" && Py.containsChar d '.'
  | _ => false

/-- Responses of `users.views.verify_otp` (mobile OTP confirmation). -/
inductive ConfirmResp where
  | ok (next_step : Nat)
  | missingFields
  | sessionNotFound
  | tooManyAttempts
  | failed (reason : OtpFailure) (attempts_left : Nat)
deriving DecidableEq

/-- `users.views.verify_otp`: rate limit (`otp_attempts >= 3`) checked before
`SignupSession.verify_otp` runs. -/
def verifyOtpView (s : SignupSession) (otp_code : String) (now : Nat) :
    ConfirmResp × SignupSession :=
  let code := Py.strip otp_code
  if code = "" then (.missingFields, s)
  else if s.is_completed then (.sessionNotFound, s)
  else if s.otp_attempts ≥ 3 then (.tooManyAttempts, s)
  else
    match s.verify_otp code now with
    | (none, s') => (.ok s'.current_step, s')
    | (some r, s') => (.failed r (3 - s'.otp_attempts), s')

/-- A fresh session as `get_or_create`'s defaults build it. -/
def freshSession (phone : String) : SignupSession :=
  { phone := phone, current_step := 1, is_completed := false, otp_code := none,
    otp_expires_at := none, otp_attempts := 0, personal_details := none,
    aadhaar_verification := none, pan_verification := none }

/-- `users.views.send_otp`.  `existing` is the incomplete session the store
holds for the cleaned phone, if any; `otp_code` is the random 6-digit draw.
`none` models the invalid-phone error responses. -/
def sendOtpView (existing : Option SignupSession) (phone otp_code : String)
    (now : Nat) : Option SignupSession :=
  let phone_digits := digitsOf (Py.strip phone)
  if phone_digits.length < 8 ∨ phone_digits.length > 15 then none
  else
    let session :=
      match existing with
      | some s => s
      | none => freshSession phone_digits
    some (session.set_otp otp_code now 300)

/-- Responses of `users.views.save_personal_details`. -/
inductive PersonalResp where
  | ok (next_step : Nat)
  | sessionNotFound
  | stepNotReached
  | validationError
deriving DecidableEq

/-- Steps 5–8 of `save_personal_details`: the ordered per-field checks
(required fields, gender choice, name length 2..100, email syntax, date
parse, not-in-future, age 18..120).  Every failure produces the same 400
`ValidationError` response and leaves the session unchanged, so the cascade
is embedded as one predicate over the already-stripped values. -/
def personalDetailsValid (today : Date)
    (full_name email date_of_birth gender : String) : Bool :=
  full_name != "" && email != "" && date_of_birth != "" &&
  (gender == "M" || gender == "F" || gender == "O") &&
  decide (2 ≤ full_name.length) && decide (full_name.length ≤ 100) &&
  emailValid email &&
  match parseDate date_of_birth with
  | none => false
  | some dob =>
      !dateLt today dob && decide (18 ≤ computeAge today dob) &&
      decide (computeAge today dob ≤ 120)

/-- `users.views.save_personal_details`. -/
def savePersonalDetailsView (today : Date) (s : SignupSession)
    (full_name email date_of_birth gender : String) (now : Nat) :
    PersonalResp × SignupSession :=
  if s.is_completed then (.sessionNotFound, s)
  else if s.current_step < 2 then (.stepNotReached, s)
  else if ¬ personalDetailsValid today (Py.strip full_name) (Py.strip email)
      (Py.strip date_of_birth) (Py.strip gender) then (.validationError, s)
  else
    (.ok (max s.current_step 3),
     { s with
         personal_details := some
           { full_name := Py.strip full_name, email := Py.strip email,
             date_of_birth := Py.strip date_of_birth,
             gender := Py.strip gender, saved_at := now },
         current_step := max s.current_step 3 })

/-- Responses of `users.views.verify_aadhaar`. -/
inductive AadhaarResp where
  | otpSent (masked_aadhaar name_on_aadhaar : String)
  | missingFields
  | sessionNotFound
  | stepNotReached
  | invalidFormat
  | recordNotFound
  | personalDetailsMissing
  | nameMismatch
  | dobMismatch
  | genderMismatch
deriving DecidableEq

/-- `users.views.verify_aadhaar` (RequestPrimaryIdOtp): registry lookup by
hash restricted to `is_active=True`, then the three ordered cross-checks;
`otp_draw` is the random OTP.  The session is only saved on the success
path, so every failure leaves `s` unchanged. -/
def verifyAadhaarView (registry : List AadhaarRecord) (s : SignupSession)
    (aadhaar_number address otp_draw : String) (now : Nat) :
    AadhaarResp × SignupSession :=
  let aadhaar_number := Py.strip aadhaar_number
  let address := Py.strip address
  if aadhaar_number = "" then (.missingFields, s)
  else if address = "" then (.missingFields, s)
  else if s.is_completed then (.sessionNotFound, s)
  else if s.current_step < 3 then (.stepNotReached, s)
  else
    let aadhaar_digits := digitsOf aadhaar_number
    if aadhaar_digits.length ≠ 12 then (.invalidFormat, s)
    else
      let aadhaar_hash := AadhaarRecord.generate_hash aadhaar_digits
      match registry.find?
          (fun r => r.aadhaar_hash == aadhaar_hash && r.is_active) with
      | none => (.recordNotFound, s)
      | some record =>
          match s.personal_details with
          | none => (.personalDetailsMissing, s)
          | some pd =>
              if Py.strip (Py.lower pd.full_name) ≠ Py.strip (Py.lower record.full_name) then
                (.nameMismatch, s)
              else if pd.date_of_birth ≠ record.date_of_birth then
                (.dobMismatch, s)
              else if pd.gender ≠ record.gender then
                (.genderMismatch, s)
              else
                (.otpSent record.get_masked_aadhaar record.full_name,
                 { s with
                     aadhaar_verification := some
                       { aadhaar_last_4 := takeRight aadhaar_digits 4,
                         aadhaar_record_id := record.id,
                         address_provided := address,
                         otp_code := some otp_draw,
                         otp_generated_at := now,
                         otp_expires_at := now + 300,
                         otp_attempts := 0,
                         status := .otpSent,
                         verified_at := none } })

/-- Responses of `users.views.verify_aadhaar_otp` / `verify_pan_otp`. -/
inductive IdOtpResp where
  | ok (next_step : Nat) (masked : String)
  | missingFields
  | sessionNotFound
  | notInitiated
  | tooManyAttempts
  | expired
  | wrongOtp (attempts_left : Nat)
deriving DecidableEq

/-- `users.views.verify_aadhaar_otp` (ConfirmPrimaryIdOtp).  The source
compares `str(otp_code) != str(stored_otp)`; whenever `status == 'otp_sent'`
the stored code is an actual string (set by `verify_aadhaar`), so the
comparison is embedded as inequality with `av.otp_code`.  The audit-trail
`KYCRecord` append is not modelled (no claim mentions it). -/
def verifyAadhaarOtpView (s : SignupSession) (otp_code : String) (now : Nat) :
    IdOtpResp × SignupSession :=
  let code := Py.strip otp_code
  if code = "" then (.missingFields, s)
  else if s.is_completed then (.sessionNotFound, s)
  else
    match s.aadhaar_verification with
    | none => (.notInitiated, s)
    | some av =>
        if av.status ≠ .otpSent then (.notInitiated, s)
        else if av.otp_attempts ≥ 3 then (.tooManyAttempts, s)
        else if now > av.otp_expires_at then (.expired, s)
        else if some code ≠ av.otp_code then
          (.wrongOtp (3 - (av.otp_attempts + 1)),
           { s with
               aadhaar_verification := some
                 { av with otp_attempts := av.otp_attempts + 1 } })
        else
          (.ok (max s.current_step 4) ("XXXX-XXXX-" ++ av.aadhaar_last_4),
           { s with
               current_step := max s.current_step 4,
               aadhaar_verification := some
                 { av with status := .verified, verified_at := some now,
                           otp_code := none } })

/-- `^[A-Z]{5}[0-9]{4}[A-Z]$`. -/
def panRegexOk (s : String) : Bool :=
  s.length == 10 &&
  (s.data.take 5).all (fun c => 'A' ≤ c && c ≤ 'Z') &&
  ((s.data.drop 5).take 4).all Char.isDigit &&
  (s.data.drop 9).all (fun c => 'A' ≤ c && c ≤ 'Z')

/-- Responses of `users.views.verify_pan`. -/
inductive PanResp where
  | otpSent (masked_pan name_on_pan : String)
  | missingFields
  | sessionNotFound
  | stepNotReached
  | invalidFormat
  | recordNotFound
  | personalDetailsMissing
  | nameMismatch
  | dobMismatch
deriving DecidableEq

/-- `users.views.verify_pan` (RequestSecondaryIdOtp): like the Aadhaar
request but gated on step 4, PAN pattern, and no gender cross-check. -/
def verifyPanView (registry : List PANRecord) (s : SignupSession)
    (pan_number : String) (consent : Bool) (otp_draw : String) (now : Nat) :
    PanResp × SignupSession :=
  let pan_number := Py.upper (Py.strip pan_number)
  if pan_number = "" then (.missingFields, s)
  else if ¬ consent then (.missingFields, s)
  else if s.is_completed then (.sessionNotFound, s)
  else if s.current_step < 4 then (.stepNotReached, s)
  else if ¬ panRegexOk pan_number then (.invalidFormat, s)
  else
    let pan_hash := PANRecord.generate_hash pan_number
    match registry.find? (fun r => r.pan_hash == pan_hash && r.is_active) with
    | none => (.recordNotFound, s)
    | some record =>
        match s.personal_details with
        | none => (.personalDetailsMissing, s)
        | some pd =>
            if Py.strip (Py.lower pd.full_name) ≠ Py.strip (Py.lower record.full_name) then
              (.nameMismatch, s)
            else if pd.date_of_birth ≠ record.date_of_birth then
              (.dobMismatch, s)
            else
              (.otpSent record.get_masked_pan record.full_name,
               { s with
                   pan_verification := some
                     { pan_last_4 := takeRight pan_number 4,
                       pan_record_id := record.id,
                       otp_code := some otp_draw,
                       otp_generated_at := now,
                       otp_expires_at := now + 300,
                       otp_attempts := 0,
                       status := .otpSent,
                       verified_at := none } })

/-- `users.views.verify_pan_otp` (ConfirmSecondaryIdOtp). -/
def verifyPanOtpView (s : SignupSession) (otp_code : String) (now : Nat) :
    IdOtpResp × SignupSession :=
  let code := Py.strip otp_code
  if code = "" then (.missingFields, s)
  else if s.is_completed then (.sessionNotFound, s)
  else
    match s.pan_verification with
    | none => (.notInitiated, s)
    | some pv =>
        if pv.status ≠ .otpSent then (.notInitiated, s)
        else if pv.otp_attempts ≥ 3 then (.tooManyAttempts, s)
        else if now > pv.otp_expires_at then (.expired, s)
        else if some code ≠ pv.otp_code then
          (.wrongOtp (3 - (pv.otp_attempts + 1)),
           { s with
               pan_verification := some
                 { pv with otp_attempts := pv.otp_attempts + 1 } })
        else
          (.ok (max s.current_step 5) ("XXXXX" ++ pv.pan_last_4),
           { s with
               current_step := max s.current_step 5,
               pan_verification := some
                 { pv with status := .verified, verified_at := some now,
                           otp_code := none } })

end Users

namespace Users

/-- `users.models.Account` (the provisioned bank account row). -/
structure AccountRec where
  user : String
  account_number : String
  display_name : String
deriving DecidableEq

/-- The store state visible to `setup_pin`: user rows, account rows, and the
session the request addresses. -/
structure World where
  users : List UserRec
  accounts : List AccountRec
  session : SignupSession
deriving DecidableEq

/-- Fault model for `setup_pin`'s later writes.  `users.views.setup_pin` has
no `transaction.atomic` wrapper, so each ORM write commits on its own and
the view's blanket `except Exception` turns a raise into a 500 response
without undoing earlier writes: `atAccountCreate` models
`Account.objects.create` raising after the user row (with PIN) was saved;
`atSessionSave` models the final `session.save()` raising. -/
inductive Fault where
  | ok
  | atAccountCreate
  | atSessionSave
deriving DecidableEq

/-- Python `full_name.split()`: split on whitespace, drop empty parts. -/
def nameParts (s : String) : List String := Py.splitWs s

/-- The `while CustomUser.objects.filter(username=...).exists()` loop;
`existing.length + 1` rounds always suffice to leave the finite set of
taken names. -/
def genUsernameGo (existing : List String) (original : String) :
    String → Nat → Nat → String
  | current, _, 0 => current
  | current, counter, fuel + 1 =>
      if current ∈ existing then
        genUsernameGo existing original (original ++ "_" ++ toString counter)
          (counter + 1) fuel
      else current

/-- `username = f"user_{session.phone}"`, de-duplicated with `_{counter}`. -/
def genUsername (existing : List String) (phone : String) : String :=
  genUsernameGo existing ("user_" ++ phone) ("user_" ++ phone) 1
    (existing.length + 1)

/-- Responses of `users.views.setup_pin`. -/
inductive SetupPinResp where
  | ok (username account_number : String)
  | missingFields
  | validationError
  | sessionNotFound
  | stepNotReached
  | notAllVerified
  | serverError
deriving DecidableEq

/-- Steps 2–5 of `setup_pin`: required fields and terms (400 with a
missing-field message), PIN format, confirmation match and the weak-PIN
deny-list (400 `ValidationError`).  All run before the session is even
loaded and leave the store unchanged. -/
def setupPinInputError (pin confirm_pin : String) (terms_accepted : Bool) :
    Option SetupPinResp :=
  if pin = "" then some .missingFields
  else if confirm_pin = "" then some .missingFields
  else if ¬ terms_accepted then some .missingFields
  else if pin.length ≠ 6 ∨ ¬ Py.isdigit pin then some .validationError
  else if pin ≠ confirm_pin then some .validationError
  else if pin ∈ ["123456", "000000", "111111", "654321", "123123"] then
    some .validationError
  else none

/-- `users.views.setup_pin` (SetupPin / AccountProvisioner).  All request
validations run before the session checks, exactly as in the source.
`account_number` stands for the random `NB...` draw after the uniqueness
loop.  The `user.set_pin` `ValueError` branch (source deletes the
just-created user and returns 400) is the `none` case of `set_pin`; it is
unreachable here because the same format check already passed, and its
compensation leaves the store unchanged, which is how it is embedded. -/
def setupPinView (w : World) (pin confirm_pin : String) (terms_accepted : Bool)
    (account_number : String) (now : Nat) (fault : Fault) :
    SetupPinResp × World :=
  match setupPinInputError (Py.strip pin) (Py.strip confirm_pin)
      terms_accepted with
  | some e => (e, w)
  | none =>
    let pin := Py.strip pin
    if w.session.is_completed then (.sessionNotFound, w)
    else if w.session.current_step < 5 then (.stepNotReached, w)
    else
    match w.session.personal_details, w.session.aadhaar_verification,
          w.session.pan_verification with
    | none, _, _ => (.notAllVerified, w)
    | some _, none, _ => (.notAllVerified, w)
    | some _, some _, none => (.notAllVerified, w)
    | some pd, some av, some pv =>
        if av.status ≠ .verified then (.notAllVerified, w)
        else if pv.status ≠ .verified then (.notAllVerified, w)
        else
          let username :=
            genUsername (w.users.map (fun u => u.username)) w.session.phone
          let parts := nameParts pd.full_name
          let user : UserRec :=
            { username := username, email := pd.email,
              first_name := parts.headD "",
              last_name :=
                if parts.length > 1 then String.intercalate " " parts.tail
                else "",
              phone := w.session.phone, is_phone_verified := true,
              pan_masked := "XXXXX" ++ pv.pan_last_4,
              aadhaar_masked := "XXXX-XXXX-" ++ av.aadhaar_last_4,
              pin_hash := none, pin_set_at := none, pin_attempts := 0,
              pin_locked_until := none }
          match user.set_pin pin now with
          | none => (.validationError, w)
          | some user' =>
              let w2 : World := { w with users := w.users ++ [user'] }
              if fault = .atAccountCreate then (.serverError, w2)
              else
                let w3 : World :=
                  { w2 with
                      accounts := w2.accounts ++
                        [{ user := username, account_number := account_number,
                           display_name := "NeoBank Savings Account" }] }
                if fault = .atSessionSave then (.serverError, w3)
                else
                  (.ok username account_number,
                   { w3 with
                       session := { w3.session with is_completed := true } })

/-- One call of any step handler of the `users` flow, carrying its request
fields and nondeterministic draws (OTP values, account number, fault). -/
inductive Op where
  | sendOtp (phone otp_code : String) (now : Nat)
  | confirmMobileOtp (otp_code : String) (now : Nat)
  | submitPersonalDetails (today : Date)
      (full_name email dob gender : String) (now : Nat)
  | requestAadhaarOtp (registry : List AadhaarRecord)
      (num addr otp_draw : String) (now : Nat)
  | confirmAadhaarOtp (otp_code : String) (now : Nat)
  | requestPanOtp (registry : List PANRecord) (pan : String) (consent : Bool)
      (otp_draw : String) (now : Nat)
  | confirmPanOtp (otp_code : String) (now : Nat)
  | setupPin (pin confirm : String) (terms : Bool) (account_number : String)
      (now : Nat) (fault : Fault)

/-- Apply one handler call to the store.  For `sendOtp`, `get_or_create`
either reuses this session (same cleaned phone, not completed) or creates a
separate fresh session, which leaves this session untouched. -/
def applyOp (w : World) : Op → World
  | .sendOtp phone code now =>
      if digitsOf (Py.strip phone) = w.session.phone ∧ ¬ w.session.is_completed then
        match sendOtpView (some w.session) phone code now with
        | some s' => { w with session := s' }
        | none => w
      else w
  | .confirmMobileOtp code now =>
      { w with session := (verifyOtpView w.session code now).2 }
  | .submitPersonalDetails today n e d g now =>
      { w with session := (savePersonalDetailsView today w.session n e d g now).2 }
  | .requestAadhaarOtp reg num addr draw now =>
      { w with session := (verifyAadhaarView reg w.session num addr draw now).2 }
  | .confirmAadhaarOtp code now =>
      { w with session := (verifyAadhaarOtpView w.session code now).2 }
  | .requestPanOtp reg pan consent draw now =>
      { w with session := (verifyPanView reg w.session pan consent draw now).2 }
  | .confirmPanOtp code now =>
      { w with session := (verifyPanOtpView w.session code now).2 }
  | .setupPin pin confirm terms acct now fault =>
      (setupPinView w pin confirm terms acct now fault).2

/-- A whole request trace. -/
def applyOps (w : World) (ops : List Op) : World := ops.foldl applyOp w

end Users

/-!
## The `accounts` app (accounts/models.py, accounts/views.py,
accounts/forms.py, accounts/utils.py)

The parallel legacy flow: `SignupProgress` gates steps with boolean flags,
stores OTPs as plain `CharField`s with **no attempt counter**, and the final
step creates an `accounts.models.CustomUser` carrying the full Aadhaar/PAN
numbers and the PIN as a plain `IntegerField`, inside `transaction.atomic`.
The generic date/email helpers from the `Users` namespace model the same
Python/Django library behaviour both apps call.
-/

namespace Accounts

open Users (Date parseDate computeAge emailValid takeRight)

/-- `accounts.models.SignupProgress` (blank `CharField`s default to `""`). -/
structure SignupProgress where
  current_step : Nat
  phone : String
  country_code : String
  mobile_otp : String
  mobile_verified : Bool
  mobile_verified_at : Option Nat
  full_name : String
  email : String
  date_of_birth : String
  gender : String
  aadhaar_number : String
  current_address : String
  aadhaar_otp : String
  aadhaar_verified : Bool
  aadhaar_verified_at : Option Nat
  aadhaar_name : String
  pan_number : String
  pan_otp : String
  pan_verified : Bool
  pan_verified_at : Option Nat
  pan_name : String
  pin : String
  terms_accepted : Bool
deriving DecidableEq

/-- A `SignupProgress` as `signup_step1` creates it. -/
def freshProgress : SignupProgress :=
  { current_step := 1, phone := "", country_code := "+91", mobile_otp := "",
    mobile_verified := false, mobile_verified_at := none, full_name := "",
    email := "", date_of_birth := "", gender := "", aadhaar_number := "",
    current_address := "", aadhaar_otp := "", aadhaar_verified := false,
    aadhaar_verified_at := none, aadhaar_name := "", pan_number := "",
    pan_otp := "", pan_verified := false, pan_verified_at := none,
    pan_name := "", pin := "", terms_accepted := false }

/-- `MobileVerificationForm`: `^\d{10}$` and the single `+91` choice. -/
def mobileFormOk (phone country_code : String) : Bool :=
  phone.length == 10 && phone.data.all Char.isDigit && country_code == "+91"

/-- Outcomes of the two POST actions of `signup_step1`. -/
inductive S1Result where
  | alreadyVerified
  | otpSent
  | formInvalid
  | verified
  | invalidOtp
  | badOtpFormat
deriving DecidableEq

/-- `accounts.views.signup_step1`, action `send_otp`; `otp_draw` is the
random `generate_otp()` value (the console SMS is the abstract notifier). -/
def step1SendOtp (p : SignupProgress) (phone country_code otp_draw : String) :
    S1Result × SignupProgress :=
  if p.mobile_verified then (.alreadyVerified, p)
  else if mobileFormOk phone country_code then
    (.otpSent, { p with phone := phone, country_code := country_code,
                        mobile_otp := otp_draw })
  else (.formInvalid, p)

/-- `accounts.views.signup_step1`, action `verify_otp`.  `SignupProgress`
has no attempt counter, a wrong code changes nothing, and on success
`mobile_otp` is left in place; the view only short-circuits later calls via
the `mobile_verified` redirect. -/
def step1VerifyOtp (p : SignupProgress) (otp : String) (now : Nat) :
    S1Result × SignupProgress :=
  if p.mobile_verified then (.alreadyVerified, p)
  else if otp.length == 6 && Py.isdigit otp then
    if otp = p.mobile_otp then
      (.verified, { p with mobile_verified := true,
                           mobile_verified_at := some now, current_step := 2 })
    else (.invalidOtp, p)
  else (.badOtpFormat, p)

/-- Outcomes of `signup_step2`'s POST. -/
inductive S2Result where
  | redirectStep1
  | saved
  | formInvalid
deriving DecidableEq

/-- `accounts.views.signup_step2`: the only gate is `mobile_verified`, and
`current_step = 3` is an unconditional assignment (not a max), even when the
session had already advanced further. -/
def step2Submit (today : Date) (p : SignupProgress)
    (full_name email dob gender : String) : S2Result × SignupProgress :=
  if ¬ p.mobile_verified then (.redirectStep1, p)
  else
    let full_name := Py.strip full_name
    let email := Py.strip email
    if 2 ≤ full_name.length ∧ full_name.length ≤ 100 ∧ emailValid email ∧
        (gender = "M" ∨ gender = "F" ∨ gender = "O") then
      match parseDate dob with
      | some d =>
          if computeAge today d ≥ 18 then
            (.saved, { p with full_name := full_name, email := email,
                              date_of_birth := dob, gender := gender,
                              current_step := 3 })
          else (.formInvalid, p)
      | none => (.formInvalid, p)
    else (.formInvalid, p)

/-- Outcomes of `signup_step3`'s POST actions. -/
inductive S3Result where
  | redirectStep2
  | redirectStep4
  | otpSent
  | formInvalid
  | verified
  | invalidOtp
  | badOtpFormat
deriving DecidableEq

def cleanAadhaar (s : String) : String :=
  String.mk (s.data.filter (fun c => c ≠ ' '))

/-- `AadhaarVerificationForm`: `^\d{4}\s?\d{4}\s?\d{4}$` then
`clean_aadhaar_number` strips the optional separators; embedded as the
cleaned value being 12 digits within the 14-char field limit. -/
def aadhaarInputOk (s : String) : Bool :=
  (cleanAadhaar s).length == 12 && (cleanAadhaar s).data.all Char.isDigit &&
  s.length ≤ 14

/-- `accounts.views.signup_step3`, action `verify_aadhaar`.  The mock
`utils.verify_aadhaar` accepts any well-formed 12-digit number and echoes
the user's own `full_name` back as `name_on_aadhaar` — no registry lookup
and no cross-check exist in this flow. -/
def step3VerifyAadhaar (p : SignupProgress) (aadhaar address : String)
    (consent : Bool) (otp_draw : String) : S3Result × SignupProgress :=
  if ¬ p.mobile_verified ∨ p.full_name = "" then (.redirectStep2, p)
  else if p.aadhaar_verified then (.redirectStep4, p)
  else if consent && aadhaarInputOk aadhaar && Py.strip address != "" then
    (.otpSent, { p with aadhaar_number := cleanAadhaar aadhaar,
                        current_address := Py.strip address,
                        aadhaar_otp := otp_draw, aadhaar_name := p.full_name })
  else (.formInvalid, p)

/-- `accounts.views.signup_step3`, action `verify_otp`. -/
def step3VerifyOtp (p : SignupProgress) (otp : String) (now : Nat) :
    S3Result × SignupProgress :=
  if ¬ p.mobile_verified ∨ p.full_name = "" then (.redirectStep2, p)
  else if p.aadhaar_verified then (.redirectStep4, p)
  else if otp.length == 6 && Py.isdigit otp then
    if otp = p.aadhaar_otp then
      (.verified, { p with aadhaar_verified := true,
                           aadhaar_verified_at := some now, current_step := 4 })
    else (.invalidOtp, p)
  else (.badOtpFormat, p)

/-- Outcomes of `signup_step4`'s POST actions. -/
inductive S4Result where
  | redirectStep3
  | redirectStep5
  | otpSent
  | formInvalid
  | verified
  | invalidOtp
  | badOtpFormat
deriving DecidableEq

/-- `accounts.views.signup_step4`, action `verify_pan` (the form's PAN regex
is the same `^[A-Z]{5}[0-9]{4}[A-Z]$`). -/
def step4VerifyPan (p : SignupProgress) (pan : String) (consent : Bool)
    (otp_draw : String) : S4Result × SignupProgress :=
  if ¬ p.aadhaar_verified then (.redirectStep3, p)
  else if p.pan_verified then (.redirectStep5, p)
  else if consent && Users.panRegexOk pan then
    (.otpSent, { p with pan_number := Py.upper pan, pan_otp := otp_draw,
                        pan_name := p.full_name })
  else (.formInvalid, p)

/-- `accounts.views.signup_step4`, action `verify_otp`. -/
def step4VerifyOtp (p : SignupProgress) (otp : String) (now : Nat) :
    S4Result × SignupProgress :=
  if ¬ p.aadhaar_verified then (.redirectStep3, p)
  else if p.pan_verified then (.redirectStep5, p)
  else if otp.length == 6 && Py.isdigit otp then
    if otp = p.pan_otp then
      (.verified, { p with pan_verified := true, pan_verified_at := some now,
                           current_step := 5 })
    else (.invalidOtp, p)
  else (.badOtpFormat, p)

/-- `accounts.models.CustomUser`: the user entity this flow provisions,
with full `aadhaar_number`/`pan_number` columns and the PIN as a plain
`IntegerField`. -/
structure AcctUser where
  username : String
  mobile : String
  email : String
  customer_id : Nat
  full_name : String
  date_of_birth : String
  gender : String
  aadhaar_number : String
  pan_number : String
  current_address : String
  pin : Int
  account_status : String
  credit_score : Int
  terms_accepted_at : Option Nat
deriving DecidableEq

/-- `accounts.models.Account`. -/
structure AcctAccount where
  user : String
  account_number : Nat
  balance : Int
  account_type : String
deriving DecidableEq

/-- Store state for `signup_step5`. -/
structure AcctWorld where
  users : List AcctUser
  accounts : List AcctAccount
  progress : Option SignupProgress
deriving DecidableEq

/-- `utils.generate_username`: two name-part initials + last 4 phone digits,
plus a random 2-digit suffix when taken. -/
def generateUsername (existing : List String) (full_name phone : String)
    (rand_suffix : Nat) : String :=
  let parts := Py.splitWs (Py.lower full_name)
  let initials := String.mk ((parts.take 2).map (fun part => part.data.headD 'x'))
  let username := initials ++ takeRight phone 4
  if username ∈ existing then username ++ toString rand_suffix else username

/-- `PINSetupForm`: both PINs 6 digits, equal, not in the 4-entry weak list,
terms ticked. -/
def pinFormOk (pin confirm : String) (terms : Bool) : Bool :=
  terms && pin.length == 6 && pin.data.all Char.isDigit &&
  confirm.length == 6 && confirm.data.all Char.isDigit && pin == confirm &&
  ! decide (pin ∈ ["123456", "000000", "111111", "654321"])

/-- Outcomes of `signup_step5`'s POST. -/
inductive S5Result where
  | redirectStep1
  | redirectStep4
  | created (user : AcctUser) (account : AcctAccount)
  | formInvalid
deriving DecidableEq

/-- `accounts.views.signup_step5`: inside one `transaction.atomic`, creates
the `CustomUser` row — copying `signup_progress.aadhaar_number`,
`pan_number` and `pin=int(pin)` verbatim — creates the `Account`, and
deletes the `SignupProgress`.  `customer_id`, `account_number`,
`rand_suffix` and `credit_score` stand for the random draws after their
uniqueness loops. -/
def signupStep5 (w : AcctWorld) (pin confirm_pin : String) (terms : Bool)
    (customer_id account_number rand_suffix : Nat) (credit_score : Int)
    (now : Nat) : S5Result × AcctWorld :=
  match w.progress with
  | none => (.redirectStep1, w)
  | some p =>
      if ¬ p.pan_verified then (.redirectStep4, w)
      else if pinFormOk pin confirm_pin terms then
        let username := generateUsername (w.users.map (fun u => u.username))
          p.full_name p.phone rand_suffix
        let user : AcctUser :=
          { username := username, mobile := p.phone, email := p.email,
            customer_id := customer_id, full_name := p.full_name,
            date_of_birth := p.date_of_birth, gender := p.gender,
            aadhaar_number := p.aadhaar_number, pan_number := p.pan_number,
            current_address := p.current_address,
            pin := (((Py.toNatOption pin).getD 0 : Nat) : Int),
            account_status := "approved", credit_score := credit_score,
            terms_accepted_at := some now }
        let account : AcctAccount :=
          { user := username, account_number := account_number, balance := 0,
            account_type := "savings" }
        (.created user account,
         { users := w.users ++ [user], accounts := w.accounts ++ [account],
           progress := none })
      else (.formInvalid, w)

end Accounts

/-!
## Concrete instances used by the per-claim theorems
-/

namespace Claims

/-- Discriminator for the accounts-flow step-5 outcome. -/
def isCreated : Accounts.S5Result → Bool
  | .created _ _ => true
  | _ => false

/-- A date to stand for `date.today()` in concrete runs. -/
def today0 : Users.Date := ⟨2026, 10, 12⟩

/-- Accounts flow: progress right after `send_otp` for phone 9876543210 with
OTP draw 111111. -/
def trP1 : Accounts.SignupProgress :=
  (Accounts.step1SendOtp Accounts.freshProgress "9876543210" "+91" "111111").2

/-- The same progress after three wrong mobile-OTP confirmations. -/
def trP1wrong : Accounts.SignupProgress :=
  (Accounts.step1VerifyOtp
    (Accounts.step1VerifyOtp
      (Accounts.step1VerifyOtp trP1 "000000" 10).2 "000001" 20).2
    "000002" 30).2

/-- After the correct mobile-OTP confirmation. -/
def trP2 : Accounts.SignupProgress := (Accounts.step1VerifyOtp trP1 "111111" 10).2

/-- After submitting personal details. -/
def trP3 : Accounts.SignupProgress :=
  (Accounts.step2Submit today0 trP2 "John Doe" "john@example.com"
    "1990-01-15" "M").2

/-- After the Aadhaar details step (OTP draw 222222). -/
def trP4 : Accounts.SignupProgress :=
  (Accounts.step3VerifyAadhaar trP3 "123412341234" "42 MG Road, Kochi" true
    "222222").2

/-- After the Aadhaar OTP confirmation (`current_step = 4`). -/
def trP5 : Accounts.SignupProgress := (Accounts.step3VerifyOtp trP4 "222222" 30).2

/-- After the PAN details step (OTP draw 333333). -/
def trP6 : Accounts.SignupProgress :=
  (Accounts.step4VerifyPan trP5 "ABCDE1234F" true "333333").2

/-- After the PAN OTP confirmation (`current_step = 5`). -/
def trP7 : Accounts.SignupProgress := (Accounts.step4VerifyOtp trP6 "333333" 40).2

/-- An empty store about to run the accounts-flow step 5. -/
def trW0 : Accounts.AcctWorld := ⟨[], [], some trP7⟩

/-- A `users`-flow session with every OTP attempt counter exhausted. -/
def exhaustedSession : Users.SignupSession :=
  { phone := "9876543210", current_step := 4, is_completed := false,
    otp_code := some "123456", otp_expires_at := some 1000, otp_attempts := 3,
    personal_details := none,
    aadhaar_verification := some
      { aadhaar_last_4 := "1234", aadhaar_record_id := 1,
        address_provided := "42 MG Road", otp_code := some "654321",
        otp_generated_at := 0, otp_expires_at := 300, otp_attempts := 3,
        status := .otpSent, verified_at := none },
    pan_verification := some
      { pan_last_4 := "234F", pan_record_id := 1, otp_code := some "654321",
        otp_generated_at := 0, otp_expires_at := 300, otp_attempts := 4,
        status := .otpSent, verified_at := none } }

/-- Users-flow accounts used by the PIN-security witnesses. -/
def pinUserBase : Users.UserRec :=
  { username := "user_9876543210", email := "john@example.com",
    first_name := "John", last_name := "Doe", phone := "9876543210",
    is_phone_verified := true, pan_masked := "XXXXX234F",
    aadhaar_masked := "XXXX-XXXX-1234", pin_hash := some "h0",
    pin_set_at := some 0, pin_attempts := 0, pin_locked_until := none }

def pinUserLocked : Users.UserRec :=
  { pinUserBase with pin_locked_until := some 1000 }

def pinUserMatch : Users.UserRec :=
  { pinUserBase with pin_hash := some (SHA256.sha256hex "482917") }

def pinUserExpired : Users.UserRec :=
  { pinUserBase with pin_attempts := 3, pin_locked_until := some 100 }

/-- A session with a freshly issued mobile OTP. -/
def freshOtpSession : Users.SignupSession :=
  { phone := "9876543210", current_step := 1, is_completed := false,
    otp_code := some "123456", otp_expires_at := some 300, otp_attempts := 0,
    personal_details := none, aadhaar_verification := none,
    pan_verification := none }

/-- Registry records and a step-3 session for the lookup/cross-check witnesses. -/
def aadhaarRecActive : Users.AadhaarRecord :=
  { id := 1, aadhaar_last_4 := "1234",
    aadhaar_hash := Users.AadhaarRecord.generate_hash "123412341234",
    full_name := "John Doe", date_of_birth := "1990-01-15", gender := "M",
    address_line := "7 Park Street, Kochi", pin_code := "682001",
    is_active := true }

def aadhaarRecInactive : Users.AadhaarRecord :=
  { aadhaarRecActive with id := 2, is_active := false }

def step3Session : Users.SignupSession :=
  { phone := "9876543210", current_step := 3, is_completed := false,
    otp_code := none, otp_expires_at := none, otp_attempts := 0,
    personal_details := some
      { full_name := "Jane Doe", email := "jane@example.com",
        date_of_birth := "1990-01-15", gender := "M", saved_at := 0 },
    aadhaar_verification := none, pan_verification := none }

/-- A session mid-way through OTP retries, and a fully verified step-5
session with its store, for the re-request and provisioning claims. -/
def resendSession : Users.SignupSession :=
  { freshOtpSession with otp_attempts := 2 }

def provisionSession : Users.SignupSession :=
  { phone := "9876543210", current_step := 5, is_completed := false,
    otp_code := none, otp_expires_at := none, otp_attempts := 0,
    personal_details := some
      { full_name := "John Doe", email := "john@example.com",
        date_of_birth := "1990-01-15", gender := "M", saved_at := 0 },
    aadhaar_verification := some
      { aadhaar_last_4 := "1234", aadhaar_record_id := 1,
        address_provided := "42 MG Road", otp_code := none,
        otp_generated_at := 0, otp_expires_at := 300, otp_attempts := 0,
        status := .verified, verified_at := some 10 },
    pan_verification := some
      { pan_last_4 := "234F", pan_record_id := 1, otp_code := none,
        otp_generated_at := 0, otp_expires_at := 300, otp_attempts := 1,
        status := .verified, verified_at := some 20 } }

def provisionWorld : Users.World := ⟨[], [], provisionSession⟩

end Claims

/-!
## Theorems
-/

namespace SHA256

theorem hex8_length (n : Nat) : (hex8 n).length = 8 := by
  simp [hex8, String.length]

theorem hexdigest_length (s : HashState) : s.hexdigest.length = 64 := by
  simp [HashState.hexdigest, String.length_append, hex8_length]

/-- A SHA-256 hex digest always has 64 characters. -/
theorem sha256hex_length (s : String) : (sha256hex s).length = 64 := by
  simp [sha256hex, hexdigest_length]

/-- A digest is never equal to a string of another length. -/
theorem sha256hex_ne_of_length {t : String} (h : t.length ≠ 64) (s : String) :
    sha256hex s ≠ t := by
  intro he
  exact h (he ▸ sha256hex_length s)

end SHA256

namespace Claims

/-- C1 (counterexample): in the accounts flow, after three failed
mobile-OTP confirmations (which change nothing, as `SignupProgress` tracks
no attempt counter), a fourth submission with the correct stored code still
succeeds — so an OTP confirmation of this program can succeed after three
failed attempts. -/
theorem claim1_counterexample :
    (Accounts.step1VerifyOtp trP1 "000000" 10).1 = .invalidOtp ∧
    trP1wrong = trP1 ∧
    (Accounts.step1VerifyOtp trP1wrong "111111" 40).1 = .verified ∧
    (Accounts.step1VerifyOtp trP1wrong "111111" 40).2.mobile_verified = true := by
  decide

/-- C1 (amended): in the `SignupSession` flow, once a sub-phase's
`otp_attempts` counter is at least 3, the corresponding confirmation view
(mobile / Aadhaar / PAN) never returns success and leaves the session
unchanged, whatever code is submitted. -/
theorem claim1_amended (s : Users.SignupSession) (code : String) (now : Nat) :
    (s.otp_attempts ≥ 3 →
      (∀ n, (Users.verifyOtpView s code now).1 ≠ .ok n) ∧
      (Users.verifyOtpView s code now).2 = s) ∧
    (∀ av, s.aadhaar_verification = some av → av.otp_attempts ≥ 3 →
      (∀ n m, (Users.verifyAadhaarOtpView s code now).1 ≠ .ok n m) ∧
      (Users.verifyAadhaarOtpView s code now).2 = s) ∧
    (∀ pv, s.pan_verification = some pv → pv.otp_attempts ≥ 3 →
      (∀ n m, (Users.verifyPanOtpView s code now).1 ≠ .ok n m) ∧
      (Users.verifyPanOtpView s code now).2 = s) := by
  refine ⟨?_, ?_, ?_⟩
  · intro h
    unfold Users.verifyOtpView
    dsimp only
    refine ⟨fun n => ?_, ?_⟩ <;> split_ifs <;> simp_all
  · intro av hav h
    unfold Users.verifyAadhaarOtpView
    dsimp only
    rw [hav]
    dsimp only
    refine ⟨fun n m => ?_, ?_⟩ <;> split_ifs <;> simp_all
  · intro pv hpv h
    unfold Users.verifyPanOtpView
    dsimp only
    rw [hpv]
    dsimp only
    refine ⟨fun n m => ?_, ?_⟩ <;> split_ifs <;> simp_all

/-- C1 (witness): the amended theorem applied to a session whose three
attempt counters are all `≥ 3`, with the correct codes submitted. -/
theorem claim1_witness :
    exhaustedSession.otp_attempts ≥ 3 ∧
    (∀ n, (Users.verifyOtpView exhaustedSession "123456" 100).1 ≠ .ok n) ∧
    (Users.verifyOtpView exhaustedSession "123456" 100).2 = exhaustedSession ∧
    (∀ n m, (Users.verifyAadhaarOtpView exhaustedSession "654321" 100).1 ≠ .ok n m) ∧
    (∀ n m, (Users.verifyPanOtpView exhaustedSession "654321" 100).1 ≠ .ok n m) :=
  ⟨by decide,
   ((claim1_amended exhaustedSession "123456" 100).1 (by decide)).1,
   ((claim1_amended exhaustedSession "123456" 100).1 (by decide)).2,
   ((claim1_amended exhaustedSession "654321" 100).2.1 _ rfl (by decide)).1,
   ((claim1_amended exhaustedSession "654321" 100).2.2 _ rfl (by decide)).1⟩

/-- C3 (counterexample): an accounts-flow session that has completed Aadhaar
verification (`current_step = 4`) re-submits step 2, and `current_step`
drops back to 3. -/
theorem claim3_counterexample :
    trP5.current_step = 4 ∧
    (Accounts.step2Submit today0 trP5 "John Doe" "john@example.com"
      "1990-01-15" "M").1 = .saved ∧
    (Accounts.step2Submit today0 trP5 "John Doe" "john@example.com"
      "1990-01-15" "M").2.current_step = 3 := by
  decide

theorem verify_otp_step_mono (s : Users.SignupSession) (c : String) (t : Nat) :
    s.current_step ≤ (s.verify_otp c t).2.current_step := by
  unfold Users.SignupSession.verify_otp
  (repeat' split) <;> simp [Nat.le_max_left]

theorem verifyOtpView_step_mono (s : Users.SignupSession) (c : String) (t : Nat) :
    s.current_step ≤ (Users.verifyOtpView s c t).2.current_step := by
  have hm := verify_otp_step_mono s (Py.strip c) t
  unfold Users.verifyOtpView
  dsimp only
  split_ifs <;> try rfl
  rcases hv : s.verify_otp (Py.strip c) t with ⟨r, s'⟩
  rw [hv] at hm
  cases r <;> simp [hv] <;> exact hm

theorem savePersonalDetailsView_step_mono (td : Users.Date)
    (s : Users.SignupSession) (a b c d : String) (t : Nat) :
    s.current_step ≤ (Users.savePersonalDetailsView td s a b c d t).2.current_step := by
  unfold Users.savePersonalDetailsView
  split_ifs <;> first | exact Nat.le_refl _ | exact Nat.le_max_left _ _

theorem verifyAadhaarView_step_mono (reg : List Users.AadhaarRecord)
    (s : Users.SignupSession) (a b c : String) (t : Nat) :
    s.current_step ≤ (Users.verifyAadhaarView reg s a b c t).2.current_step := by
  unfold Users.verifyAadhaarView
  dsimp only
  (repeat' split) <;> simp

theorem verifyAadhaarOtpView_step_mono (s : Users.SignupSession) (c : String)
    (t : Nat) :
    s.current_step ≤ (Users.verifyAadhaarOtpView s c t).2.current_step := by
  unfold Users.verifyAadhaarOtpView
  dsimp only
  (repeat' split) <;> simp [Nat.le_max_left]

theorem verifyPanView_step_mono (reg : List Users.PANRecord)
    (s : Users.SignupSession) (a : String) (cs : Bool) (c : String) (t : Nat) :
    s.current_step ≤ (Users.verifyPanView reg s a cs c t).2.current_step := by
  unfold Users.verifyPanView
  dsimp only
  (repeat' split) <;> simp

theorem verifyPanOtpView_step_mono (s : Users.SignupSession) (c : String)
    (t : Nat) :
    s.current_step ≤ (Users.verifyPanOtpView s c t).2.current_step := by
  unfold Users.verifyPanOtpView
  dsimp only
  (repeat' split) <;> simp [Nat.le_max_left]

theorem setupPinView_step_mono (w : Users.World) (p q : String) (b : Bool)
    (acct : String) (t : Nat) (f : Users.Fault) :
    w.session.current_step ≤
      (Users.setupPinView w p q b acct t f).2.session.current_step := by
  unfold Users.setupPinView
  dsimp only
  (repeat' split) <;> simp

theorem applyOp_step_mono (w : Users.World) (op : Users.Op) :
    w.session.current_step ≤ (Users.applyOp w op).session.current_step := by
  cases op with
  | sendOtp phone code t =>
      dsimp [Users.applyOp]
      split_ifs
      · unfold Users.sendOtpView
        dsimp only
        split_ifs <;> rfl
      · rfl
  | confirmMobileOtp c t => exact verifyOtpView_step_mono w.session c t
  | submitPersonalDetails td a b c d t =>
      exact savePersonalDetailsView_step_mono td w.session a b c d t
  | requestAadhaarOtp reg a b c t =>
      exact verifyAadhaarView_step_mono reg w.session a b c t
  | confirmAadhaarOtp c t => exact verifyAadhaarOtpView_step_mono w.session c t
  | requestPanOtp reg a cs c t =>
      exact verifyPanView_step_mono reg w.session a cs c t
  | confirmPanOtp c t => exact verifyPanOtpView_step_mono w.session c t
  | setupPin p q b acct t f => exact setupPinView_step_mono w p q b acct t f

/-- C3 (amended): in the `SignupSession` flow, `current_step` is
monotonically non-decreasing across any sequence of step-handler calls. -/
theorem claim3_amended (ops : List Users.Op) (w : Users.World) :
    w.session.current_step ≤ (Users.applyOps w ops).session.current_step := by
  induction ops generalizing w with
  | nil => exact Nat.le_refl _
  | cons op ops ih =>
      exact le_trans (applyOp_step_mono w op)
        (by simpa [Users.applyOps] using ih (Users.applyOp w op))

/-- C2 (counterexample): the accounts-flow final step creates a user row
whose `aadhaar_number` and `pan_number` columns hold the full identifiers
collected during signup and whose `pin` column holds the plaintext PIN as an
integer. -/
theorem claim2_counterexample :
    isCreated
      (Accounts.signupStep5 trW0 "482917" "482917" true 12345 1000000001 17
        640 50).1 = true ∧
    ((Accounts.signupStep5 trW0 "482917" "482917" true 12345 1000000001 17
        640 50).2.users.map
      (fun u => (u.aadhaar_number, u.pan_number, u.pin)))
        = [("123412341234", "ABCDE1234F", (482917 : Int))] ∧
    (Accounts.signupStep5 trW0 "482917" "482917" true 12345 1000000001 17
      640 50).2.progress = none := by
  decide

end Claims

namespace Claims

theorem verify_pin_locked (u : Users.UserRec) (pin : String) (now : Nat)
    (t : Nat) (ht : u.pin_locked_until = some t) (hlt : now < t) :
    u.verify_pin pin now = (.locked, u) := by
  unfold Users.UserRec.verify_pin
  have : u.is_pin_locked now = true := by
    unfold Users.UserRec.is_pin_locked
    rw [ht]
    simpa
  rw [this]
  simp

theorem verify_pin_wrong (u : Users.UserRec) (pin : String) (now : Nat)
    (stored : String) (hlk : u.is_pin_locked now = false)
    (hst : u.pin_hash = some stored)
    (hfmt : ¬ (pin = "" ∨ pin.length ≠ 6 ∨ ¬ Py.isdigit pin))
    (hne : SHA256.sha256hex pin ≠ stored) :
    u.verify_pin pin now =
      (.wrong,
       { u with pin_attempts := u.pin_attempts + 1,
                pin_locked_until :=
                  if u.pin_attempts + 1 ≥ 3 then some (now + 900)
                  else u.pin_locked_until }) := by
  unfold Users.UserRec.verify_pin
  rw [hlk, hst]
  dsimp only
  rw [if_neg hfmt, if_neg hne]
  simp

theorem verify_pin_match (u : Users.UserRec) (pin : String) (now : Nat)
    (hlk : u.is_pin_locked now = false)
    (hst : u.pin_hash = some (SHA256.sha256hex pin))
    (hfmt : ¬ (pin = "" ∨ pin.length ≠ 6 ∨ ¬ Py.isdigit pin)) :
    u.verify_pin pin now =
      (.ok, { u with pin_attempts := 0, pin_locked_until := none }) := by
  unfold Users.UserRec.verify_pin
  rw [hlk, hst]
  dsimp only
  rw [if_neg hfmt, if_pos rfl]
  simp

theorem not_locked_of_none (u : Users.UserRec) (now : Nat)
    (h : u.pin_locked_until = none) : u.is_pin_locked now = false := by
  unfold Users.UserRec.is_pin_locked
  rw [h]

theorem not_locked_of_expired (u : Users.UserRec) (now t : Nat)
    (h : u.pin_locked_until = some t) (hle : t ≤ now) :
    u.is_pin_locked now = false := by
  unfold Users.UserRec.is_pin_locked
  rw [h]
  simpa using Nat.not_lt.mpr hle

/-- C5: `verify_pin` returns `locked` whenever `now < pin_locked_until`; an
unlocked hash mismatch increments `pin_attempts` and sets a 15-minute
(900-second) lockout once they reach 3; a match resets both; and after
exactly 3 wrong attempts the account answers `locked` for the next 900
seconds and answers normally (`wrong` or `ok`) once the lockout expires. -/
theorem claim5_confirmed (u : Users.UserRec) (pin : String) (now : Nat) :
    (∀ t, u.pin_locked_until = some t → now < t →
      u.verify_pin pin now = (.locked, u)) ∧
    (∀ stored, u.is_pin_locked now = false → u.pin_hash = some stored →
      ¬ (pin = "" ∨ pin.length ≠ 6 ∨ ¬ Py.isdigit pin) →
      SHA256.sha256hex pin ≠ stored →
        (u.verify_pin pin now).1 = .wrong ∧
        (u.verify_pin pin now).2.pin_attempts = u.pin_attempts + 1 ∧
        (u.pin_attempts + 1 ≥ 3 →
          (u.verify_pin pin now).2.pin_locked_until = some (now + 900)) ∧
        (u.pin_attempts + 1 < 3 →
          (u.verify_pin pin now).2.pin_locked_until = u.pin_locked_until)) ∧
    (u.is_pin_locked now = false → u.pin_hash = some (SHA256.sha256hex pin) →
      ¬ (pin = "" ∨ pin.length ≠ 6 ∨ ¬ Py.isdigit pin) →
      u.verify_pin pin now =
        (.ok, { u with pin_attempts := 0, pin_locked_until := none })) ∧
    (∀ stored q t1 t2 t3, u.pin_hash = some stored → u.pin_attempts = 0 →
      u.pin_locked_until = none →
      ¬ (q = "" ∨ q.length ≠ 6 ∨ ¬ Py.isdigit q) →
      SHA256.sha256hex q ≠ stored →
      ((((u.verify_pin q t1).2.verify_pin q t2).2.verify_pin q t3).2
          = { u with pin_attempts := 3, pin_locked_until := some (t3 + 900) }) ∧
      (∀ r t, t < t3 + 900 →
        ({ u with pin_attempts := 3, pin_locked_until := some (t3 + 900) }
            : Users.UserRec).verify_pin r t
          = (.locked,
             { u with pin_attempts := 3, pin_locked_until := some (t3 + 900) })) ∧
      (∀ r t, t3 + 900 ≤ t → ¬ (r = "" ∨ r.length ≠ 6 ∨ ¬ Py.isdigit r) →
        (({ u with pin_attempts := 3, pin_locked_until := some (t3 + 900) }
            : Users.UserRec).verify_pin r t).1 = .wrong ∨
        (({ u with pin_attempts := 3, pin_locked_until := some (t3 + 900) }
            : Users.UserRec).verify_pin r t).1 = .ok)) := by
  refine ⟨fun t ht hlt => verify_pin_locked u pin now t ht hlt,
          fun stored hlk hst hfmt hne => ?_, fun hlk hst hfmt => ?_,
          fun stored q t1 t2 t3 hst ha hl hfmt hne => ?_⟩
  · rw [verify_pin_wrong u pin now stored hlk hst hfmt hne]
    refine ⟨rfl, rfl, fun h3 => ?_, fun h3 => ?_⟩
    · dsimp only
      rw [if_pos h3]
    · dsimp only
      rw [if_neg (by omega)]
  · exact verify_pin_match u pin now hlk hst hfmt
  · have key : (((u.verify_pin q t1).2.verify_pin q t2).2.verify_pin q t3).2
        = { u with pin_attempts := 3, pin_locked_until := some (t3 + 900) } := by
      rw [verify_pin_wrong u q t1 stored (not_locked_of_none u t1 hl) hst hfmt hne]
      dsimp only
      rw [ha, hl]
      norm_num
      rw [verify_pin_wrong
        { u with pin_attempts := 1, pin_locked_until := none } q t2 stored
        (not_locked_of_none _ t2 rfl) hst hfmt hne]
      dsimp only
      norm_num
      rw [verify_pin_wrong
        { u with pin_attempts := 2, pin_locked_until := none } q t3 stored
        (not_locked_of_none _ t3 rfl) hst hfmt hne]
      norm_num
    refine ⟨key, fun r t hlt => verify_pin_locked _ r t _ rfl hlt,
            fun r t hge hfmt2 => ?_⟩
    by_cases hr : SHA256.sha256hex r = stored
    · right
      rw [verify_pin_match
        { u with pin_attempts := 3, pin_locked_until := some (t3 + 900) } r t
        (not_locked_of_expired _ t _ rfl hge) (by rw [hst, hr]) hfmt2]
    · left
      rw [verify_pin_wrong
        { u with pin_attempts := 3, pin_locked_until := some (t3 + 900) } r t
        stored (not_locked_of_expired _ t _ rfl hge) hst hfmt2 hr]

/-- C5 (witness): the theorem applied to concrete users: a locked user, a
wrong attempt against a stored hash, a matching attempt, and the
three-wrong-attempts lockout scenario. -/
theorem claim5_witness :
    (pinUserLocked.verify_pin "482917" 500 = (.locked, pinUserLocked)) ∧
    ((pinUserBase.verify_pin "111111" 50).1 = .wrong ∧
     (pinUserBase.verify_pin "111111" 50).2.pin_attempts = 1) ∧
    (pinUserMatch.verify_pin "482917" 50 =
      (.ok, { pinUserMatch with pin_attempts := 0, pin_locked_until := none })) ∧
    ((((pinUserBase.verify_pin "111111" 10).2.verify_pin "111111" 20).2.verify_pin
        "111111" 30).2
      = { pinUserBase with pin_attempts := 3, pin_locked_until := some 930 }) ∧
    (({ pinUserBase with pin_attempts := 3, pin_locked_until := some 930 }
        : Users.UserRec).verify_pin "482917" 500 =
      (.locked, { pinUserBase with pin_attempts := 3, pin_locked_until := some 930 })) ∧
    ((({ pinUserBase with pin_attempts := 3, pin_locked_until := some 930 }
        : Users.UserRec).verify_pin "482917" 930).1 = .wrong ∨
     (({ pinUserBase with pin_attempts := 3, pin_locked_until := some 930 }
        : Users.UserRec).verify_pin "482917" 930).1 = .ok) := by
  have hne : SHA256.sha256hex "111111" ≠ "h0" :=
    SHA256.sha256hex_ne_of_length (by decide) "111111"
  refine ⟨(claim5_confirmed pinUserLocked "482917" 500).1 1000 rfl (by decide),
          ?_, ?_, ?_, ?_, ?_⟩
  · have h := (claim5_confirmed pinUserBase "111111" 50).2.1 "h0" (by decide)
      rfl (by decide) hne
    exact ⟨h.1, h.2.1⟩
  · exact (claim5_confirmed pinUserMatch "482917" 50).2.2.1 (by decide) rfl
      (by decide)
  · exact ((claim5_confirmed pinUserBase "000000" 0).2.2.2 "h0" "111111"
      10 20 30 rfl rfl rfl (by decide) hne).1
  · exact ((claim5_confirmed pinUserBase "000000" 0).2.2.2 "h0" "111111"
      10 20 30 rfl rfl rfl (by decide) hne).2.1 "482917" 500 (by decide)
  · exact ((claim5_confirmed pinUserBase "000000" 0).2.2.2 "h0" "111111"
      10 20 30 rfl rfl rfl (by decide) hne).2.2 "482917" 930 (by decide)
      (by decide)

/-- C10: when a lockout window has expired the attempt counter keeps its
value (>= 3), so a single further wrong attempt re-locks for another 900
seconds; the counter never shrinks on a non-`ok` outcome; only a successful
verification or `set_pin` resets it. -/
theorem claim10_confirmed (u : Users.UserRec) (pin : String) (now : Nat) :
    (∀ t stored, u.pin_locked_until = some t → t ≤ now → u.pin_attempts ≥ 3 →
      u.pin_hash = some stored →
      ¬ (pin = "" ∨ pin.length ≠ 6 ∨ ¬ Py.isdigit pin) →
      SHA256.sha256hex pin ≠ stored →
        (u.verify_pin pin now).1 = .wrong ∧
        (u.verify_pin pin now).2.pin_attempts = u.pin_attempts + 1 ∧
        (u.verify_pin pin now).2.pin_locked_until = some (now + 900)) ∧
    ((u.verify_pin pin now).1 ≠ .ok →
      u.pin_attempts ≤ (u.verify_pin pin now).2.pin_attempts) ∧
    ((u.verify_pin pin now).1 = .ok →
      (u.verify_pin pin now).2.pin_attempts = 0 ∧
      (u.verify_pin pin now).2.pin_locked_until = none) ∧
    (∀ u', u.set_pin pin now = some u' →
      u'.pin_attempts = 0 ∧ u'.pin_locked_until = none) := by
  refine ⟨fun t stored ht hle h3 hst hfmt hne => ?_, ?_, ?_, fun u' hu => ?_⟩
  · rw [verify_pin_wrong u pin now stored (not_locked_of_expired u now t ht hle)
      hst hfmt hne]
    exact ⟨rfl, rfl, by dsimp only; rw [if_pos (by omega)]⟩
  · unfold Users.UserRec.verify_pin
    (repeat' split) <;> simp_all
  · unfold Users.UserRec.verify_pin
    (repeat' split) <;> simp_all
  · unfold Users.UserRec.set_pin at hu
    split_ifs at hu
    injection hu with hu
    rw [← hu]
    exact ⟨rfl, rfl⟩

/-- C10 (witness): the theorem applied to a user whose lockout just expired
(one wrong attempt re-locks; no fresh budget), and to `set_pin`. -/
theorem claim10_witness :
    ((pinUserExpired.verify_pin "111111" 100).1 = .wrong ∧
     (pinUserExpired.verify_pin "111111" 100).2.pin_attempts = 4 ∧
     (pinUserExpired.verify_pin "111111" 100).2.pin_locked_until = some 1000) ∧
    (∃ u', pinUserExpired.set_pin "482917" 5 = some u' ∧
      u'.pin_attempts = 0 ∧ u'.pin_locked_until = none) := by
  have hne : SHA256.sha256hex "111111" ≠ "h0" :=
    SHA256.sha256hex_ne_of_length (by decide) "111111"
  have h := (claim10_confirmed pinUserExpired "111111" 100).1 100 "h0" rfl
    (by decide) (by decide) rfl (by decide) hne
  refine ⟨⟨h.1, h.2.1, h.2.2⟩, ⟨_, rfl, ?_⟩⟩
  exact (claim10_confirmed pinUserExpired "482917" 5).2.2.2 _ rfl

end Claims

namespace Claims

/-- C6 (amended): in the `SignupSession` flow the OTP is single-use —
`SignupSession.verify_otp` clears the stored code on success, a repeat of
the model call fails with `noOtp`, and a repeat through the view responds
`failed noOtp`.  (In the accounts-app flow the code is *not* cleared; see
the counterexample.) -/
theorem claim6_amended (s : Users.SignupSession) (code : String)
    (now now2 : Nat) (s' : Users.SignupSession)
    (h : s.verify_otp code now = (none, s')) :
    s'.otp_code = none ∧ s'.otp_attempts = 0 ∧
    s'.verify_otp code now2 = (some .noOtp, s') ∧
    (s.is_completed = false → Py.strip code = code → code ≠ "" →
      (Users.verifyOtpView s' code now2).1 = .failed .noOtp 3) := by
  unfold Users.SignupSession.verify_otp at h
  rcases hc : s.otp_code with _ | stored
  · rw [hc] at h
    exact absurd (congrArg Prod.fst h) (by simp)
  · rw [hc] at h
    dsimp only at h
    split_ifs at h with h1 h2
    · have hs' := (congrArg Prod.snd h).symm
      subst hs'
      refine ⟨rfl, rfl, rfl, fun hcomp hstrip hne => ?_⟩
      unfold Users.verifyOtpView
      dsimp only
      rw [hstrip, if_neg hne]
      simp [hcomp, Users.SignupSession.verify_otp]
    · exact absurd (congrArg Prod.fst h) (by simp)
    · exact absurd (congrArg Prod.fst h) (by simp)

/-- C6 (witness): the amended theorem applied to a concrete session whose
stored OTP is confirmed successfully. -/
theorem claim6_witness :
    ((freshOtpSession.verify_otp "123456" 100).2.otp_code = none) ∧
    ((freshOtpSession.verify_otp "123456" 100).2.verify_otp "123456" 150
      = (some .noOtp, (freshOtpSession.verify_otp "123456" 100).2)) ∧
    ((Users.verifyOtpView (freshOtpSession.verify_otp "123456" 100).2
        "123456" 150).1 = .failed .noOtp 3) := by
  have h := claim6_amended freshOtpSession "123456" 100 150
    (freshOtpSession.verify_otp "123456" 100).2 (by decide)
  exact ⟨h.1, h.2.2.1, h.2.2.2 (by decide) (by decide) (by decide)⟩

end Claims

namespace Claims

/-- C7: when the registry lookup succeeds but a personal-details field
differs, `verify_aadhaar` fails naming exactly the mismatched field — name,
then date of birth, then gender — and returns the session unchanged (the
session is only saved on the full-match path). -/
theorem claim7_confirmed (registry : List Users.AadhaarRecord)
    (s : Users.SignupSession) (num addr draw : String) (now : Nat)
    (record : Users.AadhaarRecord) (pd : Users.PersonalDetails)
    (hnum : Py.strip num ≠ "") (haddr : Py.strip addr ≠ "")
    (hcomp : s.is_completed = false) (hstep : ¬ s.current_step < 3)
    (hlen : (Users.digitsOf (Py.strip num)).length = 12)
    (hfind : registry.find? (fun r =>
        r.aadhaar_hash == Users.AadhaarRecord.generate_hash
          (Users.digitsOf (Py.strip num)) && r.is_active) = some record)
    (hpd : s.personal_details = some pd) :
    (Py.strip (Py.lower pd.full_name) ≠ Py.strip (Py.lower record.full_name) →
      Users.verifyAadhaarView registry s num addr draw now = (.nameMismatch, s)) ∧
    (Py.strip (Py.lower pd.full_name) = Py.strip (Py.lower record.full_name) →
      pd.date_of_birth ≠ record.date_of_birth →
      Users.verifyAadhaarView registry s num addr draw now = (.dobMismatch, s)) ∧
    (Py.strip (Py.lower pd.full_name) = Py.strip (Py.lower record.full_name) →
      pd.date_of_birth = record.date_of_birth →
      pd.gender ≠ record.gender →
      Users.verifyAadhaarView registry s num addr draw now = (.genderMismatch, s)) := by
  refine ⟨fun h1 => ?_, fun h1 h2 => ?_, fun h1 h2 h3 => ?_⟩ <;>
    simp only [Users.verifyAadhaarView, if_neg hnum, if_neg haddr, hcomp,
      Bool.false_eq_true, if_false, if_neg hstep, hlen, ne_eq,
      not_true_eq_false, if_false, hfind, hpd]
  · rw [if_pos h1]
  · rw [if_neg (by simpa using h1), if_pos h2]
  · rw [if_neg (by simpa using h1), if_neg (by simpa using h2), if_pos h3]

/-- C9: the Aadhaar lookup matches the SHA-256 hash of the cleaned
identifier against records with `is_active = True`; when no active record
carries that hash (absent or inactive), `verify_aadhaar` fails with the
not-found response and the session is unchanged; and any record the lookup
returns is active with the matching hash. -/
theorem claim9_confirmed (registry : List Users.AadhaarRecord)
    (s : Users.SignupSession) (num addr draw : String) (now : Nat)
    (hnum : Py.strip num ≠ "") (haddr : Py.strip addr ≠ "")
    (hcomp : s.is_completed = false) (hstep : ¬ s.current_step < 3)
    (hlen : (Users.digitsOf (Py.strip num)).length = 12) :
    ((∀ r ∈ registry,
        r.aadhaar_hash = Users.AadhaarRecord.generate_hash
          (Users.digitsOf (Py.strip num)) → r.is_active = false) →
      Users.verifyAadhaarView registry s num addr draw now
        = (.recordNotFound, s)) ∧
    (∀ record, registry.find? (fun r =>
        r.aadhaar_hash == Users.AadhaarRecord.generate_hash
          (Users.digitsOf (Py.strip num)) && r.is_active) = some record →
      record.is_active = true ∧
      record.aadhaar_hash = Users.AadhaarRecord.generate_hash
        (Users.digitsOf (Py.strip num))) := by
  constructor
  · intro h
    have hnone : registry.find? (fun r =>
        r.aadhaar_hash == Users.AadhaarRecord.generate_hash
          (Users.digitsOf (Py.strip num)) && r.is_active) = none := by
      rw [List.find?_eq_none]
      intro r hr
      simp only [Bool.and_eq_true, beq_iff_eq, not_and]
      intro he
      simp [h r hr he]
    simp only [Users.verifyAadhaarView, if_neg hnum, if_neg haddr, hcomp,
      Bool.false_eq_true, if_false, if_neg hstep, hlen, ne_eq,
      not_true_eq_false, if_false, hnone]
  · intro record hfind
    have hp := List.find?_some hfind
    simp only [Bool.and_eq_true, beq_iff_eq] at hp
    exact ⟨hp.2, hp.1⟩

theorem aadhaarRecActive_found :
    [aadhaarRecActive].find? (fun r =>
        r.aadhaar_hash == Users.AadhaarRecord.generate_hash
          (Users.digitsOf (Py.strip "123412341234")) && r.is_active)
      = some aadhaarRecActive := by
  have hd : Users.digitsOf (Py.strip "123412341234") = "123412341234" := by
    decide
  simp only [hd, List.find?, aadhaarRecActive, beq_self_eq_true,
    Bool.and_self]

/-- C7 (witness): a registry record whose stored name differs from the
session's step-2 name (everything else matching) produces the
name-mismatch rejection with the session unchanged. -/
theorem claim7_witness :
    Users.verifyAadhaarView [aadhaarRecActive] step3Session "123412341234"
      "42 MG Road, Kochi" "555555" 0 = (.nameMismatch, step3Session) :=
  (claim7_confirmed [aadhaarRecActive] step3Session "123412341234"
      "42 MG Road, Kochi" "555555" 0 aadhaarRecActive _
      (by decide) (by decide) rfl (by decide) (by decide)
      aadhaarRecActive_found rfl).1 (by decide)

/-- C9 (witness): with only an inactive record holding the identifier's
hash, the lookup treats it as not found. -/
theorem claim9_witness :
    Users.verifyAadhaarView [aadhaarRecInactive] step3Session "123412341234"
      "42 MG Road, Kochi" "555555" 0 = (.recordNotFound, step3Session) :=
  (claim9_confirmed [aadhaarRecInactive] step3Session "123412341234"
      "42 MG Road, Kochi" "555555" 0
      (by decide) (by decide) rfl (by decide) (by decide)).1
    (fun r hr _ => by
      rw [List.mem_singleton] at hr
      rw [hr]
      rfl)

end Claims

namespace Claims

/-- C8: re-requesting a mobile OTP on an existing incomplete session stores
the new code with a fresh 300-second expiry and resets `otp_attempts` to 0;
afterwards a submission that is not the new code never succeeds. -/
theorem claim8_confirmed (s : Users.SignupSession) (phone old new : String)
    (now now2 : Nat)
    (hph : 8 ≤ (Users.digitsOf (Py.strip phone)).length ∧
      (Users.digitsOf (Py.strip phone)).length ≤ 15) :
    Users.sendOtpView (some s) phone new now = some (s.set_otp new now 300) ∧
    (s.set_otp new now 300).otp_attempts = 0 ∧
    (s.set_otp new now 300).otp_code = some new ∧
    (s.set_otp new now 300).otp_expires_at = some (now + 300) ∧
    (Py.strip old ≠ new →
      ∀ n, (Users.verifyOtpView (s.set_otp new now 300) old now2).1 ≠ .ok n) := by
  refine ⟨?_, rfl, rfl, rfl, fun hne n => ?_⟩
  · unfold Users.sendOtpView
    dsimp only
    rw [if_neg (by omega)]
  · unfold Users.verifyOtpView
    dsimp only
    split_ifs <;> try simp
    simp only [Users.SignupSession.set_otp, Users.SignupSession.verify_otp,
      Users.SignupSession.otp_is_valid]
    split_ifs with h1 h2 <;> simp_all

/-- C8 (witness): the theorem applied to a session holding code 123456 with
2 failed attempts; the re-request stores 222222 with attempts 0 and the old
code then fails. -/
theorem claim8_witness :
    Users.sendOtpView (some resendSession) "9876543210" "222222" 400
      = some (resendSession.set_otp "222222" 400 300) ∧
    (resendSession.set_otp "222222" 400 300).otp_attempts = 0 ∧
    (resendSession.set_otp "222222" 400 300).otp_code = some "222222" ∧
    (∀ n, (Users.verifyOtpView (resendSession.set_otp "222222" 400 300)
      "123456" 450).1 ≠ .ok n) := by
  have h := claim8_confirmed resendSession "9876543210" "123456" "222222"
    400 450 (by decide)
  exact ⟨h.1, h.2.1, h.2.2.1, h.2.2.2.2 (by decide)⟩

/-- `CustomUser.set_pin` on a well-formed PIN. -/
theorem set_pin_eq (u : Users.UserRec) (pin : String) (now : Nat)
    (hfmt : ¬ (pin = "" ∨ pin.length ≠ 6 ∨ ¬ Py.isdigit pin)) :
    u.set_pin pin now = some
      { u with pin_hash := some (SHA256.sha256hex pin),
               pin_set_at := some now, pin_attempts := 0,
               pin_locked_until := none } := by
  unfold Users.UserRec.set_pin
  rw [if_neg hfmt]

/-- C2 (amended): a successful run of the `users`-flow final step stores a
SHA-256 hex digest as `pin_hash` — never the plaintext PIN — and persists
only the masked last-4 fragments of the two identifiers on the user row. -/
theorem claim2_amended (w : Users.World) (pin confirm acct : String)
    (now : Nat) (pd : Users.PersonalDetails)
    (av : Users.AadhaarVerification) (pv : Users.PanVerification)
    (hval : Users.setupPinInputError (Py.strip pin) (Py.strip confirm) true
      = none)
    (hcomp : w.session.is_completed = false)
    (hstep : ¬ w.session.current_step < 5)
    (hpd : w.session.personal_details = some pd)
    (hav : w.session.aadhaar_verification = some av)
    (havs : av.status = .verified)
    (hpv : w.session.pan_verification = some pv)
    (hpvs : pv.status = .verified) :
    ∃ u : Users.UserRec,
      (Users.setupPinView w pin confirm true acct now .ok).1
        = .ok u.username acct ∧
      (Users.setupPinView w pin confirm true acct now .ok).2.users
        = w.users ++ [u] ∧
      (Users.setupPinView w pin confirm true acct now .ok).2.session.is_completed
        = true ∧
      u.pin_hash = some (SHA256.sha256hex (Py.strip pin)) ∧
      SHA256.sha256hex (Py.strip pin) ≠ Py.strip pin ∧
      u.pan_masked = "XXXXX" ++ pv.pan_last_4 ∧
      u.aadhaar_masked = "XXXX-XXXX-" ++ av.aadhaar_last_4 := by
  have hval' := hval
  unfold Users.setupPinInputError at hval'
  split_ifs at hval' with h1 h2 h3 h4 h5 h6 <;> try simp at hval'
  have h4' := not_or.mp h4
  have hfmt : ¬ (Py.strip pin = "" ∨ (Py.strip pin).length ≠ 6 ∨
      ¬ Py.isdigit (Py.strip pin)) := not_or.mpr ⟨h1, h4⟩
  have hne : SHA256.sha256hex (Py.strip pin) ≠ Py.strip pin :=
    SHA256.sha256hex_ne_of_length (by rw [not_ne_iff.mp h4'.1]; decide) _
  unfold Users.setupPinView
  dsimp only
  rw [hval]
  dsimp only
  rw [hcomp]
  rw [if_neg (by simp), if_neg hstep, hpd, hav, hpv]
  dsimp only
  rw [if_neg (by simp [havs]), if_neg (by simp [hpvs])]
  rw [set_pin_eq _ _ _ hfmt]
  dsimp only
  rw [if_neg (fun hcon => Users.Fault.noConfusion hcon),
      if_neg (fun hcon => Users.Fault.noConfusion hcon)]
  exact ⟨_, rfl, rfl, rfl, rfl, hne, rfl, rfl⟩

/-- C2 (witness): the amended theorem applied to a fully-verified concrete
session with PIN 482917. -/
theorem claim2_witness :
    ∃ u : Users.UserRec,
      (Users.setupPinView provisionWorld "482917" "482917" true
        "NB1234567890" 50 .ok).1 = .ok u.username "NB1234567890" ∧
      (Users.setupPinView provisionWorld "482917" "482917" true
        "NB1234567890" 50 .ok).2.users = [] ++ [u] ∧
      (Users.setupPinView provisionWorld "482917" "482917" true
        "NB1234567890" 50 .ok).2.session.is_completed = true ∧
      u.pin_hash = some (SHA256.sha256hex (Py.strip "482917")) ∧
      SHA256.sha256hex (Py.strip "482917") ≠ Py.strip "482917" ∧
      u.pan_masked = "XXXXX" ++ "234F" ∧
      u.aadhaar_masked = "XXXX-XXXX-" ++ "1234" :=
  claim2_amended provisionWorld "482917" "482917" "NB1234567890" 50 _ _ _
    (by decide) rfl (by decide) rfl rfl rfl rfl rfl

/-- C4 (code_bug): `setup_pin` is not atomic.  With the Account insert
failing after the user row (with PIN) was created, the visible state keeps
the user, has no account, and the session is not completed; the fault-free
run from the same state creates both and completes the session. -/
theorem claim4_bug :
    (Users.setupPinView provisionWorld "482917" "482917" true "NB1234567890"
      50 .atAccountCreate).1 = .serverError ∧
    (Users.setupPinView provisionWorld "482917" "482917" true "NB1234567890"
      50 .atAccountCreate).2.users.length = 1 ∧
    (Users.setupPinView provisionWorld "482917" "482917" true "NB1234567890"
      50 .atAccountCreate).2.accounts = [] ∧
    (Users.setupPinView provisionWorld "482917" "482917" true "NB1234567890"
      50 .atAccountCreate).2.session.is_completed = false ∧
    (Users.setupPinView provisionWorld "482917" "482917" true "NB1234567890"
      50 .ok).1 = .ok "user_9876543210" "NB1234567890" ∧
    (Users.setupPinView provisionWorld "482917" "482917" true "NB1234567890"
      50 .ok).2.users.length = 1 ∧
    (Users.setupPinView provisionWorld "482917" "482917" true "NB1234567890"
      50 .ok).2.accounts.length = 1 ∧
    (Users.setupPinView provisionWorld "482917" "482917" true "NB1234567890"
      50 .ok).2.session.is_completed = true := by
  decide

end Claims

namespace Claims

/-- C6 (counterexample): in the accounts flow a successful mobile-OTP
confirmation does not clear the stored code — `mobile_otp` still holds
111111 afterwards — and resubmitting the code is answered by the
already-verified redirect, not a `NoOtp` failure. -/
theorem claim6_counterexample :
    (Accounts.step1VerifyOtp trP1 "111111" 10).1 = .verified ∧
    trP2.mobile_otp = "111111" ∧
    (Accounts.step1VerifyOtp trP2 "111111" 20).1 = .alreadyVerified := by
  decide

end Claims
